import Mathlib

/-!
Verification development for the pretix-mbway payment plugin.

Shallow embedding of the plugin's reconciliation / initiation logic:
  * `src/pretix_mbway/models.py`            — Transaction Record store
  * `src/pretix_mbway/ifthenpay/mbway.py`   — IfThenPay HTTP adapter
  * `src/pretix_mbway/payment.py`           — SIBS initiation (`MBWAY.execute_payment`)
  * `src/pretix_mbway/views.py`             — webhook reconciliation handler (`callback`)

Fallible Python code is embedded as functions into `Except PyError`; the webhook
handler and `execute_payment` additionally thread their durable state
(transaction-record stores and payment states) explicitly.
-/

namespace PretixMbway

/-- Python exceptions that the embedded code can raise. -/
inductive PyError where
  /-- `TypeError`, e.g. concatenating `str + int`. -/
  | typeError : PyError
  /-- `KeyError` (Django's `MultiValueDictKeyError` is a subclass), carrying the key. -/
  | keyError : String → PyError
  /-- `IndexError`, e.g. `[0]` on an empty list. -/
  | indexError : PyError
  /-- `json.JSONDecodeError`: `.json()` on an unparsable response body. -/
  | jsonError : PyError
  /-- `AttributeError`, e.g. an attribute access on an object lacking it. -/
  | attributeError : PyError
  /-- Django `Model.DoesNotExist` from `objects.get` with no match. -/
  | doesNotExist : PyError
  /-- Django `MultipleObjectsReturned` from `objects.get` with several matches. -/
  | multipleObjectsReturned : PyError
  /-- Database `IntegrityError` (unique / not-null constraint violation). -/
  | integrityError : PyError
  /-- `IfThenPayException`, carrying the message payload (raw gateway code). -/
  | ifThenPayException : String → PyError
  /-- pretix `PaymentException`, carrying the raw gateway status code. -/
  | paymentException : String → PyError
  /-- pretix `Quota.QuotaExceededException`. -/
  | quotaExceededException : PyError
  deriving DecidableEq, Repr

/-- Parsed JSON body of an IfThenPay gateway response. Fields are `Option`al
because the corresponding JSON keys may be absent; `EstadoPedidos` entries are
modelled by their `Estado` string. -/
structure ITPBody where
  estado : Option String
  estadoPedidos : Option (List String)
  idPedido : Option String
  deriving DecidableEq, Repr

/-- An HTTP response from the IfThenPay gateway as seen by `requests`:
its status code and its body (`none` when the body is not valid JSON,
so that `.json()` raises). -/
structure HttpResult where
  status_code : Nat
  body : Option ITPBody
  deriving DecidableEq, Repr

/-- `mbway.py`: `STATE_PAID = '000'`. -/
def STATE_PAID : String := "000"

/-- `mbway.py`: `STATE_CANCELLED = '020'`. -/
def STATE_CANCELLED : String := "020"

/-- `mbway.py`: `STATE_PENDING = '123'` (the source notes expiry is
indistinguishable from pending). -/
def STATE_PENDING : String := "123"

/-- `models.py`: `MBWAYIfThenPayObject`. `orderID` is `unique=True`; the
`payment` foreign key is nullable and carries no uniqueness constraint. -/
structure MBWAYIfThenPayObject where
  orderID : String
  mbway_key : String
  channel : String
  order : Nat
  payment : Option Nat
  deriving DecidableEq, Repr

/-- The Transaction Record store for `MBWAYIfThenPayObject`, as the list of
persisted rows in insertion order. -/
abbrev ITPStore := List MBWAYIfThenPayObject

/-- `MBWAYIfThenPayObject.objects.create(...)`: the insert succeeds and appends
the row unless the `unique=True` constraint on `orderID` is violated, in which
case the database raises `IntegrityError` and the store is unchanged. -/
def createITP (store : ITPStore) (r : MBWAYIfThenPayObject) : Except PyError ITPStore :=
  if store.any (fun x => x.orderID = r.orderID) then Except.error PyError.integrityError
  else Except.ok (store ++ [r])

/-- `Model.objects.get(orderID=idpedido)`: exactly one row or an exception. -/
def objectsGetITP (store : ITPStore) (tid : String) : Except PyError MBWAYIfThenPayObject :=
  match store.filter (fun r => r.orderID = tid) with
  | [] => Except.error PyError.doesNotExist
  | [r] => Except.ok r
  | _ :: _ :: _ => Except.error PyError.multipleObjectsReturned

/-- `mbway.py` `get_order_by_id(idpedido)`. -/
def get_order_by_id (store : ITPStore) (idpedido : String) : Except PyError MBWAYIfThenPayObject :=
  objectsGetITP store idpedido

/-- `mbway.py` `get_order_by_payment(payment)`: `objects.get(payment=payment)`. -/
def get_order_by_payment (store : ITPStore) (pk : Nat) : Except PyError MBWAYIfThenPayObject :=
  match store.filter (fun r => r.payment = some pk) with
  | [] => Except.error PyError.doesNotExist
  | [r] => Except.ok r
  | _ :: _ :: _ => Except.error PyError.multipleObjectsReturned

/-- `mbway.py` `request_accepted(result)`. On a non-200 status the source runs
`'MBWay payment failed with status ' + result.status_code`, a `str + int`
concatenation that raises `TypeError` before the `IfThenPayException` is built.
On a 200 status it parses the body and raises `IfThenPayException` carrying the
raw `Estado` code unless that code is `'000'`. -/
def request_accepted (result : HttpResult) : Except PyError Bool :=
  if result.status_code ≠ 200 then
    Except.error PyError.typeError
  else
    match result.body with
    | none => Except.error PyError.jsonError
    | some b =>
      match b.estado with
      | none => Except.error (PyError.keyError "Estado")
      | some e =>
        if e ≠ "000" then Except.error (PyError.ifThenPayException e)
        else Except.ok true

/-- `mbway.py` `create_order(result, mbwaykey, canal, payment)`: persists a
Transaction Record whose `orderID` is the response body's `IdPedido`.
`result.json().get('IdPedido')` yields `None` when the key is absent, and
inserting `NULL` into the non-null unique `orderID` column raises
`IntegrityError`. -/
def create_order (store : ITPStore) (result : HttpResult) (mbwaykey canal : String)
    (orderPk paymentPk : Nat) : Except PyError ITPStore :=
  match result.body with
  | none => Except.error PyError.jsonError
  | some b =>
    match b.idPedido with
    | none => Except.error PyError.integrityError
    | some tid =>
      createITP store { orderID := tid, mbway_key := mbwaykey, channel := canal,
                        order := orderPk, payment := some paymentPk }

/-- `mbway.py` `require_payment_state(mbwaykey, canal, idpedido)`, as a function
of the gateway's HTTP response. The source first runs `print(result.json())`,
so an unparsable body raises regardless of the status code; then, on status
200 with outer `Estado == '000'`, it returns `EstadoPedidos[0]` (raising
`KeyError`/`IndexError` when the key is absent or the list empty); in every
other case it returns `''`. -/
def require_payment_state (result : HttpResult) : Except PyError String :=
  match result.body with
  | none => Except.error PyError.jsonError
  | some b =>
    if result.status_code = 200 then
      match b.estado with
      | none => Except.error (PyError.keyError "Estado")
      | some e =>
        if e = "000" then
          match b.estadoPedidos with
          | none => Except.error (PyError.keyError "EstadoPedidos")
          | some l =>
            match l with
            | [] => Except.error PyError.indexError
            | s :: _ => Except.ok s
        else Except.ok ""
    else Except.ok ""

/-- The spec's four-valued gateway status vocabulary. -/
inductive GatewayStatus where
  | paid | pending | cancelled | unknown
  deriving DecidableEq, Repr

/-- Spec-side classification of a raw gateway code into the four logical
values, via the repository's own `STATE_*` constants: `'000'` → Paid,
`'020'` → Cancelled, `'123'` → Pending, anything else → Unknown. Stated from
the spec's words for comparison with the adapter's raw output. -/
def classifyCode (c : String) : GatewayStatus :=
  if c = STATE_PAID then GatewayStatus.paid
  else if c = STATE_CANCELLED then GatewayStatus.cancelled
  else if c = STATE_PENDING then GatewayStatus.pending
  else GatewayStatus.unknown

/-- pretix `OrderPayment` states (`PAYMENT_STATE_*`). -/
inductive PaymentState where
  | created | pending | confirmed | canceled | failed | refunded
  deriving DecidableEq, Repr

/-- A pretix `OrderPayment` as `execute_payment` touches it: its in-memory
`state` attribute and the last state persisted by `payment.save()`. -/
structure OrderPayment where
  state : PaymentState
  saved_state : PaymentState
  deriving DecidableEq, Repr

/-- `payment.save()`: persist the in-memory state. -/
def OrderPayment.save (p : OrderPayment) : OrderPayment :=
  { p with saved_state := p.state }

/-- The `returnStatus` object of a SIBS gateway JSON response. -/
structure SIBSReturnStatus where
  statusCode : String
  statusMessage : String
  deriving DecidableEq, Repr

/-- A SIBS gateway HTTP response as `execute_payment` consumes it: the HTTP
status code (which the source never inspects) and the parsed JSON fields. -/
structure SIBSResponse where
  status_code : Nat
  returnStatus : SIBSReturnStatus
  transactionID : String
  transactionSignature : String
  deriving DecidableEq, Repr

/-- Modelled from the spec: `payment.py` imports `MBWAYGatewayObject` from
`.models`, but the `models.py` in the source tree defines only
`MBWAYIfThenPayObject`; the model class itself is missing. Per the spec's
Transaction Record, it holds the gateway `transaction_id` (unique, immutable)
and references to the owning order and payment attempt. -/
structure MBWAYGatewayObject where
  transactionID : String
  order : Nat
  payment : Nat
  deriving DecidableEq, Repr

/-- The Transaction Record store for `MBWAYGatewayObject`. -/
abbrev GWStore := List MBWAYGatewayObject

/-- Modelled from the spec: `MBWAYGatewayObject.objects.create(...)` appends a
row; the spec's unique-`transaction_id` invariant makes a duplicate id a
constraint violation (`IntegrityError`), leaving the store unchanged. -/
def createGW (store : GWStore) (r : MBWAYGatewayObject) : Except PyError GWStore :=
  if store.any (fun x => x.transactionID = r.transactionID) then
    Except.error PyError.integrityError
  else Except.ok (store ++ [r])

/-- `payment.py` `MBWAY.execute_payment`, as a function of the phone number in
the session and the two SIBS gateway responses. Returns the outcome together
with the final `OrderPayment` and Transaction Record store.

Mirrors the source control flow:
  * empty `telemovel`: set `payment.state = FAILED` (without saving); the
    exception message interpolates `request.status_code`, an attribute
    `HttpRequest` lacks, so `AttributeError` is raised.
  * first call's `returnStatus.statusCode != '000'`: set state FAILED, save,
    raise `PaymentException` carrying the raw code. The HTTP status code of
    the response is never inspected.
  * second call's `returnStatus.statusCode != '000'`: likewise.
  * otherwise: create the `MBWAYGatewayObject` with the first response's
    `transactionID`, set state PENDING, save. -/
def execute_payment (telemovel : String) (resp1 resp2 : SIBSResponse)
    (payment : OrderPayment) (paymentPk orderPk : Nat) (store : GWStore) :
    Except PyError Unit × OrderPayment × GWStore :=
  if telemovel = "" then
    (Except.error PyError.attributeError, { payment with state := PaymentState.failed }, store)
  else if resp1.returnStatus.statusCode ≠ "000" then
    (Except.error (PyError.paymentException resp1.returnStatus.statusCode),
     OrderPayment.save { payment with state := PaymentState.failed }, store)
  else if resp2.returnStatus.statusCode ≠ "000" then
    (Except.error (PyError.paymentException resp2.returnStatus.statusCode),
     OrderPayment.save { payment with state := PaymentState.failed }, store)
  else
    match createGW store { transactionID := resp1.transactionID,
                           order := orderPk, payment := paymentPk } with
    | Except.error e => (Except.error e, payment, store)
    | Except.ok store2 =>
      (Except.ok (),
       OrderPayment.save { payment with state := PaymentState.pending }, store2)

/-- A Django `HttpResponse`: status and content. `HttpResponse(405)` in the
source passes `405` as the *content* argument, so it is status 200 with body
`"405"`; `HttpResponse(status=200)` is status 200 with empty body. -/
structure HttpResponse where
  status : Nat
  content : String
  deriving DecidableEq, Repr

/-- `request.GET['idpedido']` on a Django `QueryDict`: the value, or
`KeyError` (`MultiValueDictKeyError`) when the parameter is absent. -/
def dictGet (params : List (String × String)) (k : String) : Except PyError String :=
  match params.lookup k with
  | some v => Except.ok v
  | none => Except.error (PyError.keyError k)

/-- `views.py` line 68: `requests.request(...).json()['EstadoPedidos'][0]['Estado']`.
The handler parses the body without checking the HTTP status or the outer
`Estado` field; a missing key raises `KeyError` and an empty list `IndexError`. -/
def extractEstadoCallback (r : HttpResult) : Except PyError String :=
  match r.body with
  | none => Except.error PyError.jsonError
  | some b =>
    match b.estadoPedidos with
    | none => Except.error (PyError.keyError "EstadoPedidos")
    | some l =>
      match l with
      | [] => Except.error PyError.indexError
      | s :: _ => Except.ok s

/-- The durable state the webhook handler reads and writes: the
`MBWAYIfThenPayObject` store and the pretix payment-attempt states, keyed by
the payments' primary keys. -/
structure CallbackState where
  itpStore : ITPStore
  payments : List (Nat × PaymentState)
  deriving DecidableEq, Repr

/-- Look up a payment attempt's state by primary key. -/
def getPayment (ps : List (Nat × PaymentState)) (pk : Nat) : Option PaymentState :=
  (ps.find? (fun x => x.1 = pk)).map (fun x => x.2)

/-- Write a payment attempt's state by primary key. -/
def setPayment (ps : List (Nat × PaymentState)) (pk : Nat) (s : PaymentState) :
    List (Nat × PaymentState) :=
  ps.map (fun x => if x.1 = pk then (pk, s) else x)

/-- `views.py` `callback(request)`. The behavior of the external pretix
collaborator methods `payment.confirm()` and `payment.fail()` is passed in as
the parameters `confirmB` / `failB`, each mapping the payment's current state
to either its new state or a raised exception.

Mirrors the source control flow:
  * `request.GET['idpedido']` raises `KeyError` when absent; the handler's
    `except IndexError` clause cannot catch it (dead code), and even that
    clause would return `HttpResponse(405)` — status 200 with body "405".
  * `objects.get(orderID=idpedido)`: `DoesNotExist` propagates uncaught.
  * the status query's `EstadoPedidos[0]` is read (errors propagate).
  * `estado == '000'`: `payment.confirm()`, swallowing only
    `Quota.QuotaExceededException`; `estado == '123'`: `payment.fail()`
    unguarded; any other code: no action. (`order_obj.payment` is a nullable
    foreign key; calling a method on `None` raises `AttributeError`.)
  * finally `HttpResponse(status=200)`. -/
def callback (params : List (String × String)) (gwResp : HttpResult)
    (confirmB failB : PaymentState → Except PyError PaymentState)
    (st : CallbackState) : Except PyError HttpResponse × CallbackState :=
  match dictGet params "idpedido" with
  | Except.error PyError.indexError => (Except.ok ⟨200, "405"⟩, st)
  | Except.error e => (Except.error e, st)
  | Except.ok idpedido =>
    match objectsGetITP st.itpStore idpedido with
    | Except.error e => (Except.error e, st)
    | Except.ok order_obj =>
      match extractEstadoCallback gwResp with
      | Except.error e => (Except.error e, st)
      | Except.ok estado =>
        if estado = "000" then
          match order_obj.payment with
          | none => (Except.error PyError.attributeError, st)
          | some pk =>
            match getPayment st.payments pk with
            | none => (Except.error PyError.doesNotExist, st)
            | some s =>
              match confirmB s with
              | Except.ok s2 =>
                (Except.ok ⟨200, ""⟩, { st with payments := setPayment st.payments pk s2 })
              | Except.error PyError.quotaExceededException => (Except.ok ⟨200, ""⟩, st)
              | Except.error e => (Except.error e, st)
        else if estado = "123" then
          match order_obj.payment with
          | none => (Except.error PyError.attributeError, st)
          | some pk =>
            match getPayment st.payments pk with
            | none => (Except.error PyError.doesNotExist, st)
            | some s =>
              match failB s with
              | Except.ok s2 =>
                (Except.ok ⟨200, ""⟩, { st with payments := setPayment st.payments pk s2 })
              | Except.error e => (Except.error e, st)
        else (Except.ok ⟨200, ""⟩, st)

/-- Modelled from the spec: the external PaymentAttemptStore's `confirm`
transition — "Confirmed and Failed are terminal; re-invocation on a terminal
state is a no-op", and confirmation "capable of signaling a capacity-conflict
condition" when the event's quota is exhausted. `quotaAvailable` says whether
capacity remains. -/
def confirmPayment (quotaAvailable : Bool) (s : PaymentState) : Except PyError PaymentState :=
  if s = PaymentState.confirmed then Except.ok PaymentState.confirmed
  else if quotaAvailable then Except.ok PaymentState.confirmed
  else Except.error PyError.quotaExceededException

/-- Modelled from the spec: the external PaymentAttemptStore's `fail`
transition; marking an already-failed attempt failed again is a harmless
no-op. -/
def failPayment (_s : PaymentState) : Except PyError PaymentState :=
  Except.ok PaymentState.failed

/-! ### Helper lemmas -/

theorem getPayment_cons (hd : Nat × PaymentState) (tl : List (Nat × PaymentState)) (pk : Nat) :
    getPayment (hd :: tl) pk = if hd.1 = pk then some hd.2 else getPayment tl pk := by
  by_cases hk : hd.1 = pk <;> simp [getPayment, List.find?_cons, hk]

theorem setPayment_cons (hd : Nat × PaymentState) (tl : List (Nat × PaymentState))
    (pk : Nat) (v : PaymentState) :
    setPayment (hd :: tl) pk v = (if hd.1 = pk then (pk, v) else hd) :: setPayment tl pk v := by
  simp [setPayment]

theorem setPayment_id_of_not_mem (ps : List (Nat × PaymentState)) (pk : Nat) (v : PaymentState)
    (h : ∀ x ∈ ps, x.1 ≠ pk) : setPayment ps pk v = ps := by
  induction ps with
  | nil => rfl
  | cons hd tl ih =>
    rw [setPayment_cons, if_neg (h hd (List.mem_cons_self hd tl)),
      ih (fun x hx => h x (List.mem_cons_of_mem hd hx))]

theorem setPayment_idem (ps : List (Nat × PaymentState)) (pk : Nat) (v : PaymentState) :
    setPayment (setPayment ps pk v) pk v = setPayment ps pk v := by
  induction ps with
  | nil => rfl
  | cons hd tl ih => by_cases hk : hd.1 = pk <;> simp [setPayment_cons, hk, ih]

theorem getPayment_setPayment (ps : List (Nat × PaymentState)) (pk : Nat)
    (v w : PaymentState) (h : getPayment ps pk = some w) :
    getPayment (setPayment ps pk v) pk = some v := by
  induction ps with
  | nil => simp [getPayment] at h
  | cons hd tl ih =>
    rw [getPayment_cons] at h
    rw [setPayment_cons]
    by_cases hk : hd.1 = pk
    · rw [if_pos hk, getPayment_cons]
      simp
    · rw [if_neg hk] at h
      rw [if_neg hk, getPayment_cons, if_neg hk]
      exact ih h

theorem setPayment_eq_of_nodup (ps : List (Nat × PaymentState)) (pk : Nat) (v : PaymentState)
    (hnd : ps.Pairwise (fun a b => a.1 ≠ b.1))
    (h : getPayment ps pk = some v) : setPayment ps pk v = ps := by
  induction ps with
  | nil => rfl
  | cons hd tl ih =>
    obtain ⟨k, w⟩ := hd
    rw [List.pairwise_cons] at hnd
    rw [getPayment_cons] at h
    rw [setPayment_cons]
    by_cases hk : k = pk
    · rw [if_pos hk] at h ⊢
      have hw : w = v := by injection h
      rw [setPayment_id_of_not_mem tl pk v (fun x hx he => hnd.1 x hx (hk.trans he.symm))]
      rw [← hk, ← hw]
    · rw [if_neg hk] at h ⊢
      rw [ih hnd.2 h]

/-- Reduction of `callback` on a tracked transaction id whose gateway status
query yields a parseable inner code, to the branch on that code. Shared by the
claim-level theorems. -/
theorem callback_tracked_eq (params : List (String × String)) (gwResp : HttpResult)
    (confirmB failB : PaymentState → Except PyError PaymentState)
    (st : CallbackState) (tid estado : String) (rec : MBWAYIfThenPayObject)
    (pk : Nat) (s : PaymentState)
    (hget : dictGet params "idpedido" = Except.ok tid)
    (hrec : st.itpStore.filter (fun r => r.orderID = tid) = [rec])
    (hpk : rec.payment = some pk)
    (hs : getPayment st.payments pk = some s)
    (hest : extractEstadoCallback gwResp = Except.ok estado) :
    callback params gwResp confirmB failB st =
      if estado = "000" then
        match confirmB s with
        | Except.ok s2 =>
          (Except.ok ⟨200, ""⟩, { st with payments := setPayment st.payments pk s2 })
        | Except.error PyError.quotaExceededException => (Except.ok ⟨200, ""⟩, st)
        | Except.error e => (Except.error e, st)
      else if estado = "123" then
        match failB s with
        | Except.ok s2 =>
          (Except.ok ⟨200, ""⟩, { st with payments := setPayment st.payments pk s2 })
        | Except.error e => (Except.error e, st)
      else (Except.ok ⟨200, ""⟩, st) := by
  simp only [callback, hget, objectsGetITP, hrec, hest, hpk, hs]

instance {ε α : Type} [DecidableEq ε] [DecidableEq α] : DecidableEq (Except ε α) := fun x y =>
  match x, y with
  | Except.ok a, Except.ok b =>
    if h : a = b then Decidable.isTrue (congrArg Except.ok h)
    else Decidable.isFalse (fun he => h (Except.ok.inj he))
  | Except.error a, Except.error b =>
    if h : a = b then Decidable.isTrue (congrArg Except.error h)
    else Decidable.isFalse (fun he => h (Except.error.inj he))
  | Except.ok _, Except.error _ => Decidable.isFalse (fun he => Except.noConfusion he)
  | Except.error _, Except.ok _ => Decidable.isFalse (fun he => Except.noConfusion he)

/-! ### Concrete fixtures for closed evaluations -/

/-- A concrete webhook state: one tracked transaction `"A1"` linked to payment
attempt `1`, currently pending. -/
def sampleState : CallbackState :=
  { itpStore := [{ orderID := "A1", mbway_key := "key", channel := "ch",
                   order := 1, payment := some 1 }],
    payments := [(1, PaymentState.pending)] }

/-- A concrete well-formed status-query response whose first `EstadoPedidos`
entry is `code`. -/
def respWith (code : String) : HttpResult :=
  { status_code := 200,
    body := some { estado := some "000", estadoPedidos := some [code], idPedido := none } }

/-! ### Claim theorems -/

/-- C1: the claim says the handler confirms on Paid (`'000'`), marks the
payment failed on the gateway's explicit-cancellation code, and takes no
action on Pending or Unknown. The code confirms on `'000'` as claimed, but it
takes no action on `STATE_CANCELLED = '020'` and marks the payment failed on
`STATE_PENDING = '123'` — the fail branch is keyed on the repository's own
pending code, contradicting its declared constants. This theorem evaluates the
handler at the three codes. -/
theorem callback_status_mapping_bug :
    (callback [("idpedido", "A1")] (respWith STATE_PAID) (confirmPayment true) failPayment
        sampleState).2.payments = [(1, PaymentState.confirmed)] ∧
    callback [("idpedido", "A1")] (respWith STATE_CANCELLED) (confirmPayment true) failPayment
        sampleState = (Except.ok ⟨200, ""⟩, sampleState) ∧
    (callback [("idpedido", "A1")] (respWith STATE_PENDING) (confirmPayment true) failPayment
        sampleState).2.payments = [(1, PaymentState.failed)] := by
  decide

/-- C2: for every transaction id not present in the Transaction Record Store,
the reconciliation handler fails with the unknown-transaction error
(`MBWAYIfThenPayObject.DoesNotExist`) and leaves the whole state — in
particular every Payment Attempt — unchanged. -/
theorem callback_unknown_transaction (params : List (String × String)) (gwResp : HttpResult)
    (confirmB failB : PaymentState → Except PyError PaymentState)
    (st : CallbackState) (tid : String)
    (hget : dictGet params "idpedido" = Except.ok tid)
    (habs : st.itpStore.filter (fun r => r.orderID = tid) = []) :
    callback params gwResp confirmB failB st = (Except.error PyError.doesNotExist, st) := by
  simp only [callback, hget, objectsGetITP, habs]

theorem callback_unknown_transaction_witness :
    callback [("idpedido", "ZZ")] (respWith STATE_PAID) (confirmPayment true) failPayment
        sampleState = (Except.error PyError.doesNotExist, sampleState) :=
  callback_unknown_transaction [("idpedido", "ZZ")] (respWith STATE_PAID)
    (confirmPayment true) failPayment sampleState "ZZ" (by decide) (by decide)

/-- C7: the claim says a webhook request carrying the transaction id returns
HTTP 200 on successful processing, and an absent identifier yields HTTP 405.
The code returns 200 on success as claimed, but an absent `idpedido` raises
`KeyError` (Django's `MultiValueDictKeyError`), which the handler's
`except IndexError` clause cannot catch, so no 405 response is produced — and
the clause's `HttpResponse(405)` would anyway be status 200 with body "405".
This theorem evaluates the handler with and without the parameter. -/
theorem callback_missing_id_bug :
    callback [] (respWith STATE_PAID) (confirmPayment true) failPayment sampleState
      = (Except.error (PyError.keyError "idpedido"), sampleState) ∧
    (callback [("idpedido", "A1")] (respWith STATE_PAID) (confirmPayment true) failPayment
        sampleState).1 = Except.ok ⟨200, ""⟩ := by
  decide

theorem confirmPayment_true (s : PaymentState) :
    confirmPayment true s = Except.ok PaymentState.confirmed := by
  cases s <;> rfl

/-- C5: during reconciliation of a Paid status (`'000'`), a
`Quota.QuotaExceededException` raised by `payment.confirm()` is swallowed and
the handler still completes with HTTP 200; every other exception raised by the
confirmation propagates unchanged; and at the fail transition (code `'123'`)
every exception — the quota error included — propagates, so the swallow exists
only at the Confirmed transition. -/
theorem callback_quota_swallowed_only_at_confirm
    (params : List (String × String)) (gwPaid gwPending : HttpResult)
    (confirmB failB : PaymentState → Except PyError PaymentState)
    (st : CallbackState) (tid : String) (rec : MBWAYIfThenPayObject)
    (pk : Nat) (s : PaymentState)
    (hget : dictGet params "idpedido" = Except.ok tid)
    (hrec : st.itpStore.filter (fun r => r.orderID = tid) = [rec])
    (hpk : rec.payment = some pk)
    (hs : getPayment st.payments pk = some s)
    (hpaid : extractEstadoCallback gwPaid = Except.ok "000")
    (hpend : extractEstadoCallback gwPending = Except.ok "123") :
    (confirmB s = Except.error PyError.quotaExceededException →
       callback params gwPaid confirmB failB st = (Except.ok ⟨200, ""⟩, st)) ∧
    (∀ e, e ≠ PyError.quotaExceededException → confirmB s = Except.error e →
       callback params gwPaid confirmB failB st = (Except.error e, st)) ∧
    (∀ e, failB s = Except.error e →
       callback params gwPending confirmB failB st = (Except.error e, st)) := by
  have h1 := callback_tracked_eq params gwPaid confirmB failB st tid "000" rec pk s
    hget hrec hpk hs hpaid
  have h2 := callback_tracked_eq params gwPending confirmB failB st tid "123" rec pk s
    hget hrec hpk hs hpend
  rw [if_pos rfl] at h1
  rw [if_neg (by decide), if_pos rfl] at h2
  refine ⟨fun hq => ?_, fun e he hq => ?_, fun e hq => ?_⟩
  · rw [h1, hq]
  · rw [h1, hq]
    cases e <;> first | rfl | exact absurd rfl he
  · rw [h2, hq]

theorem callback_quota_swallowed_only_at_confirm_witness :
    callback [("idpedido", "A1")] (respWith "000")
        (fun _ => Except.error PyError.quotaExceededException)
        (fun _ => Except.error PyError.quotaExceededException) sampleState
      = (Except.ok ⟨200, ""⟩, sampleState) ∧
    callback [("idpedido", "A1")] (respWith "123")
        (fun _ => Except.error PyError.quotaExceededException)
        (fun _ => Except.error PyError.quotaExceededException) sampleState
      = (Except.error PyError.quotaExceededException, sampleState) :=
  have h := callback_quota_swallowed_only_at_confirm [("idpedido", "A1")]
    (respWith "000") (respWith "123")
    (fun _ => Except.error PyError.quotaExceededException)
    (fun _ => Except.error PyError.quotaExceededException)
    sampleState "A1" { orderID := "A1", mbway_key := "key", channel := "ch",
                       order := 1, payment := some 1 }
    1 PaymentState.pending
    (by decide) (by decide) (by decide) (by decide) (by decide) (by decide)
  ⟨h.1 rfl, h.2.2 PyError.quotaExceededException rfl⟩

/-- C8: reconciliation is idempotent. With the spec-modelled collaborator
transitions, a Paid (`'000'`) reconciliation on a tracked id returns HTTP 200
and confirms the linked Payment Attempt; invoking it a second time returns
HTTP 200 again and changes nothing (the second call is a no-op); and
re-invocation on a terminal Payment Attempt — Confirmed under `'000'`, or
Failed under the code `'123'` that drives the code's fail branch — is a
state-preserving no-op rather than an error. -/
theorem callback_reconcile_idempotent
    (params : List (String × String)) (gwPaid gwPending : HttpResult)
    (st : CallbackState) (tid : String) (rec : MBWAYIfThenPayObject)
    (pk : Nat) (s : PaymentState)
    (hnd : st.payments.Pairwise (fun a b => a.1 ≠ b.1))
    (hget : dictGet params "idpedido" = Except.ok tid)
    (hrec : st.itpStore.filter (fun r => r.orderID = tid) = [rec])
    (hpk : rec.payment = some pk)
    (hs : getPayment st.payments pk = some s)
    (hpaid : extractEstadoCallback gwPaid = Except.ok "000") :
    (callback params gwPaid (confirmPayment true) failPayment st).1 = Except.ok ⟨200, ""⟩ ∧
    getPayment (callback params gwPaid (confirmPayment true) failPayment st).2.payments pk
      = some PaymentState.confirmed ∧
    callback params gwPaid (confirmPayment true) failPayment
        (callback params gwPaid (confirmPayment true) failPayment st).2
      = (Except.ok ⟨200, ""⟩, (callback params gwPaid (confirmPayment true) failPayment st).2) ∧
    (s = PaymentState.confirmed →
       callback params gwPaid (confirmPayment true) failPayment st = (Except.ok ⟨200, ""⟩, st)) ∧
    (s = PaymentState.failed → extractEstadoCallback gwPending = Except.ok "123" →
       callback params gwPending (confirmPayment true) failPayment st
         = (Except.ok ⟨200, ""⟩, st)) := by
  have h1 := callback_tracked_eq params gwPaid (confirmPayment true) failPayment st tid "000"
    rec pk s hget hrec hpk hs hpaid
  rw [if_pos rfl, confirmPayment_true] at h1
  have h1' : callback params gwPaid (confirmPayment true) failPayment st =
      (Except.ok ⟨200, ""⟩,
       { st with payments := setPayment st.payments pk PaymentState.confirmed }) := h1
  have hs2 : getPayment (setPayment st.payments pk PaymentState.confirmed) pk
      = some PaymentState.confirmed := getPayment_setPayment st.payments pk _ s hs
  refine ⟨by rw [h1'], by rw [h1']; exact hs2, ?_, fun hc => ?_, fun hf hpend => ?_⟩
  · have h2 := callback_tracked_eq params gwPaid (confirmPayment true) failPayment
      { st with payments := setPayment st.payments pk PaymentState.confirmed } tid "000"
      rec pk PaymentState.confirmed hget hrec hpk hs2 hpaid
    rw [if_pos rfl, confirmPayment_true] at h2
    have h2' : callback params gwPaid (confirmPayment true) failPayment
        { st with payments := setPayment st.payments pk PaymentState.confirmed } =
        (Except.ok ⟨200, ""⟩, { st with payments := (setPayment (setPayment st.payments pk PaymentState.confirmed) pk PaymentState.confirmed) }) := h2
    rw [h1', h2']
    simp only [setPayment_idem]
  · rw [h1', setPayment_eq_of_nodup st.payments pk PaymentState.confirmed hnd (hc ▸ hs)]
  · have h3 := callback_tracked_eq params gwPending (confirmPayment true) failPayment st tid
      "123" rec pk s hget hrec hpk hs hpend
    rw [if_neg (by decide), if_pos rfl] at h3
    have h3' : callback params gwPending (confirmPayment true) failPayment st =
        (Except.ok ⟨200, ""⟩,
         { st with payments := setPayment st.payments pk PaymentState.failed }) := h3
    rw [h3', setPayment_eq_of_nodup st.payments pk PaymentState.failed hnd (hf ▸ hs)]

theorem callback_reconcile_idempotent_witness :
    (callback [("idpedido", "A1")] (respWith "000") (confirmPayment true) failPayment
        sampleState).1 = Except.ok ⟨200, ""⟩ ∧
    getPayment (callback [("idpedido", "A1")] (respWith "000") (confirmPayment true) failPayment
        sampleState).2.payments 1 = some PaymentState.confirmed ∧
    callback [("idpedido", "A1")] (respWith "000") (confirmPayment true) failPayment
        (callback [("idpedido", "A1")] (respWith "000") (confirmPayment true) failPayment
          sampleState).2
      = (Except.ok ⟨200, ""⟩,
         (callback [("idpedido", "A1")] (respWith "000") (confirmPayment true) failPayment
           sampleState).2) ∧
    (PaymentState.pending = PaymentState.confirmed →
       callback [("idpedido", "A1")] (respWith "000") (confirmPayment true) failPayment
         sampleState = (Except.ok ⟨200, ""⟩, sampleState)) ∧
    (PaymentState.pending = PaymentState.failed →
       extractEstadoCallback (respWith "123") = Except.ok "123" →
       callback [("idpedido", "A1")] (respWith "123") (confirmPayment true) failPayment
         sampleState = (Except.ok ⟨200, ""⟩, sampleState)) :=
  callback_reconcile_idempotent [("idpedido", "A1")] (respWith "000") (respWith "123")
    sampleState "A1" { orderID := "A1", mbway_key := "key", channel := "ch",
                       order := 1, payment := some 1 }
    1 PaymentState.pending
    (by decide) (by decide) (by decide) (by decide) (by decide) (by decide)

/-- A concrete successful SIBS response. -/
def sibsOk : SIBSResponse :=
  { status_code := 200, returnStatus := { statusCode := "000", statusMessage := "Success" },
    transactionID := "T1", transactionSignature := "sig" }

/-- A concrete rejected SIBS response (HTTP 200, gateway failure code). -/
def sibsRej : SIBSResponse :=
  { status_code := 200, returnStatus := { statusCode := "048", statusMessage := "Declined" },
    transactionID := "", transactionSignature := "" }

/-- A concrete SIBS response with a non-200 HTTP status but a gateway success
code in the body. -/
def sibsNon200Ok : SIBSResponse :=
  { status_code := 500, returnStatus := { statusCode := "000", statusMessage := "Success" },
    transactionID := "T1", transactionSignature := "sig" }

/-- A fresh pretix payment attempt. -/
def payZero : OrderPayment :=
  { state := PaymentState.created, saved_state := PaymentState.created }

/-- C3 counterexample: the claim says any non-200 HTTP status makes the
initiation fail with zero new Transaction Records, but `execute_payment`
never inspects the HTTP status: on a response with HTTP 500 whose body carries
the gateway success code it completes successfully and persists a Transaction
Record. -/
theorem execute_payment_non200_creates_record :
    execute_payment "912345678" sibsNon200Ok sibsOk payZero 1 1 []
      = (Except.ok (),
         { state := PaymentState.pending, saved_state := PaymentState.pending },
         [{ transactionID := "T1", order := 1, payment := 1 }]) := by
  decide

/-- C3 amended: a gateway-reported failure code makes the initiation fail with
the raw code and zero new Transaction Records — in `execute_payment` either
call's `statusCode ≠ '000'` raises `PaymentException` with the code and leaves
the store untouched (the HTTP status is not inspected), and in the IfThenPay
helper `request_accepted` a non-200 status raises (a `TypeError` from the
`str + int` message concatenation) and a failure `Estado` raises
`IfThenPayException` carrying the raw code, so its caller can never reach a
record-creating step. -/
theorem initiation_rejected_no_record
    (telemovel : String) (resp1 resp2 : SIBSResponse) (payment : OrderPayment)
    (paymentPk orderPk : Nat) (store : GWStore)
    (result : HttpResult) (est : String) (ped : Option (List String)) (idp : Option String)
    (htel : telemovel ≠ "") :
    (resp1.returnStatus.statusCode ≠ "000" →
       execute_payment telemovel resp1 resp2 payment paymentPk orderPk store
         = (Except.error (PyError.paymentException resp1.returnStatus.statusCode),
            { state := PaymentState.failed, saved_state := PaymentState.failed }, store)) ∧
    (resp1.returnStatus.statusCode = "000" → resp2.returnStatus.statusCode ≠ "000" →
       execute_payment telemovel resp1 resp2 payment paymentPk orderPk store
         = (Except.error (PyError.paymentException resp2.returnStatus.statusCode),
            { state := PaymentState.failed, saved_state := PaymentState.failed }, store)) ∧
    (result.status_code ≠ 200 → request_accepted result = Except.error PyError.typeError) ∧
    (est ≠ "000" →
       request_accepted { status_code := 200,
                          body := some { estado := some est, estadoPedidos := ped,
                                         idPedido := idp } } =
         Except.error (PyError.ifThenPayException est)) := by
  refine ⟨fun h1 => ?_, fun h1 h2 => ?_, fun hst => ?_, fun hne => ?_⟩
  · unfold execute_payment
    rw [if_neg htel, if_pos h1]
    rfl
  · unfold execute_payment
    rw [if_neg htel, if_neg (fun h => h h1), if_pos h2]
    rfl
  · unfold request_accepted
    rw [if_pos hst]
  · show (if est ≠ "000" then Except.error (PyError.ifThenPayException est) else Except.ok true)
      = Except.error (PyError.ifThenPayException est)
    rw [if_pos hne]

theorem initiation_rejected_no_record_witness :
    (sibsRej.returnStatus.statusCode ≠ "000" →
       execute_payment "912345678" sibsRej sibsOk payZero 1 1 []
         = (Except.error (PyError.paymentException sibsRej.returnStatus.statusCode),
            { state := PaymentState.failed, saved_state := PaymentState.failed }, [])) ∧
    (sibsRej.returnStatus.statusCode = "000" → sibsOk.returnStatus.statusCode ≠ "000" →
       execute_payment "912345678" sibsRej sibsOk payZero 1 1 []
         = (Except.error (PyError.paymentException sibsOk.returnStatus.statusCode),
            { state := PaymentState.failed, saved_state := PaymentState.failed }, [])) ∧
    ((404 : Nat) ≠ 200 →
       request_accepted { status_code := 404, body := none } = Except.error PyError.typeError) ∧
    ("048" ≠ "000" →
       request_accepted { status_code := 200,
                          body := some { estado := some "048", estadoPedidos := none,
                                         idPedido := none } }
         = Except.error (PyError.ifThenPayException "048")) :=
  initiation_rejected_no_record "912345678" sibsRej sibsOk payZero 1 1 []
    { status_code := 404, body := none } "048" none none (by decide)

/-- C4: when the gateway accepts the initiation — HTTP 200 and success code
`'000'` on both SIBS calls — exactly one new Transaction Record is appended to
the store, and its transaction id equals the id reported in the gateway's
response body (`transactionID` of the first SIBS response; `IdPedido` of the
IfThenPay response for `create_order`). -/
theorem initiation_success_creates_record
    (telemovel : String) (resp1 resp2 : SIBSResponse) (payment : OrderPayment)
    (paymentPk orderPk : Nat) (store : GWStore)
    (itpStore : ITPStore) (sc3 : Nat) (esto3 : Option String) (ped3 : Option (List String))
    (tid : String) (mbwaykey canal : String) (orderPk2 paymentPk2 : Nat)
    (htel : telemovel ≠ "")
    (_hhttp : resp1.status_code = 200)
    (h1 : resp1.returnStatus.statusCode = "000")
    (h2 : resp2.returnStatus.statusCode = "000")
    (hfresh : store.any (fun x => x.transactionID = resp1.transactionID) = false)
    (hfresh2 : itpStore.any (fun x => x.orderID = tid) = false) :
    execute_payment telemovel resp1 resp2 payment paymentPk orderPk store
      = (Except.ok (),
         { state := PaymentState.pending, saved_state := PaymentState.pending },
         store ++ [{ transactionID := resp1.transactionID,
                     order := orderPk, payment := paymentPk }]) ∧
    create_order itpStore
        { status_code := sc3,
          body := some { estado := esto3, estadoPedidos := ped3, idPedido := some tid } }
        mbwaykey canal orderPk2 paymentPk2
      = Except.ok (itpStore ++ [{ orderID := tid, mbway_key := mbwaykey, channel := canal,
                                  order := orderPk2, payment := some paymentPk2 }]) := by
  constructor
  · unfold execute_payment
    rw [if_neg htel, if_neg (fun h => h h1), if_neg (fun h => h h2)]
    unfold createGW
    rw [hfresh]
    rfl
  · show createITP itpStore { orderID := tid, mbway_key := mbwaykey, channel := canal, order := orderPk2, payment := some paymentPk2 } = _
    unfold createITP
    rw [hfresh2]
    rfl

theorem initiation_success_creates_record_witness :
    execute_payment "912345678" sibsOk sibsOk payZero 1 1 []
      = (Except.ok (),
         { state := PaymentState.pending, saved_state := PaymentState.pending },
         [{ transactionID := sibsOk.transactionID, order := 1, payment := 1 }]) ∧
    create_order [] { status_code := 200,
                      body := some { estado := some "000", estadoPedidos := none,
                                     idPedido := some "A1B2" } } "key" "ch" 2 3
      = Except.ok [{ orderID := "A1B2", mbway_key := "key", channel := "ch",
                     order := 2, payment := some 3 }] := by
  have h := initiation_success_creates_record "912345678" sibsOk sibsOk payZero 1 1 []
    [] 200 (some "000") none "A1B2" "key" "ch" 2 3
    (by decide) (by decide) (by decide) (by decide) (by decide) (by decide)
  exact ⟨h.1, h.2⟩

/-- C10: in `execute_payment`, whenever either gateway call reports a
`returnStatus.statusCode` other than `'000'`, the Payment Attempt's state is
set to `PAYMENT_STATE_FAILED` and saved (persisted) before the
`PaymentException` carrying that code is raised — a rejected initiation does
mutate the internal Payment Attempt even though no Transaction Record is
created. -/
theorem execute_payment_rejected_marks_failed_saved
    (telemovel : String) (resp1 resp2 : SIBSResponse) (payment : OrderPayment)
    (paymentPk orderPk : Nat) (store : GWStore)
    (htel : telemovel ≠ "")
    (hfail : resp1.returnStatus.statusCode ≠ "000" ∨ resp2.returnStatus.statusCode ≠ "000") :
    ∃ code, code ≠ "000" ∧
      execute_payment telemovel resp1 resp2 payment paymentPk orderPk store
        = (Except.error (PyError.paymentException code),
           { state := PaymentState.failed, saved_state := PaymentState.failed }, store) := by
  by_cases h1 : resp1.returnStatus.statusCode = "000"
  · have h2 : resp2.returnStatus.statusCode ≠ "000" := by
      rcases hfail with h | h
      · exact absurd h1 h
      · exact h
    refine ⟨resp2.returnStatus.statusCode, h2, ?_⟩
    unfold execute_payment
    rw [if_neg htel, if_neg (fun h => h h1), if_pos h2]
    rfl
  · refine ⟨resp1.returnStatus.statusCode, h1, ?_⟩
    unfold execute_payment
    rw [if_neg htel, if_pos h1]
    rfl

theorem execute_payment_rejected_marks_failed_saved_witness :
    ∃ code, code ≠ "000" ∧
      execute_payment "912345678" sibsRej sibsOk payZero 1 1 []
        = (Except.error (PyError.paymentException code),
           { state := PaymentState.failed, saved_state := PaymentState.failed }, []) :=
  execute_payment_rejected_marks_failed_saved "912345678" sibsRej sibsOk payZero 1 1 []
    (by decide) (Or.inl (by decide))

/-- C6 counterexample: an HTTP-200 response whose body is not valid JSON. The
claim says a malformed response body maps to Unknown (every input yields
exactly one of the four status values), but `require_payment_state` calls
`print(result.json())` before anything else, so it raises a JSON decode error
and yields no status value at all. -/
theorem require_payment_state_malformed_raises :
    require_payment_state { status_code := 200, body := none }
      = Except.error PyError.jsonError := by
  decide

/-- A well-formed status-query response, by components: parseable body with
outer `Estado` and an `EstadoPedidos` list. -/
def wfResp (sc : Nat) (est : String) (ss : List String) (idp : Option String) : HttpResult :=
  { status_code := sc,
    body := some { estado := some est, estadoPedidos := some ss, idPedido := idp } }

/-- C6 amended: restricted to well-formed responses (parseable body with the
`Estado` key and a non-empty `EstadoPedidos` list), the status-query adapter
is deterministic and total: it yields exactly one raw code — the first
per-transaction code on HTTP 200 with outer success, and `''` on a non-200
status or an outer failure — and composing with the classification induced by
the repository's own constants gives `'000'` → Paid, `'020'` → Cancelled,
`'123'` → Pending and everything else (including `''`) → Unknown. A malformed
body, a missing key, or an empty list instead raises an exception. -/
theorem require_payment_state_total_on_wellformed
    (sc : Nat) (est s : String) (l : List String) (idp : Option String) :
    (∃ c, require_payment_state (wfResp sc est (s :: l) idp) = Except.ok c) ∧
    (sc ≠ 200 → require_payment_state (wfResp sc est (s :: l) idp) = Except.ok "") ∧
    (sc = 200 → est ≠ "000" →
       require_payment_state (wfResp sc est (s :: l) idp) = Except.ok "") ∧
    (sc = 200 → est = "000" →
       require_payment_state (wfResp sc est (s :: l) idp) = Except.ok s) ∧
    classifyCode STATE_PAID = GatewayStatus.paid ∧
    classifyCode STATE_CANCELLED = GatewayStatus.cancelled ∧
    classifyCode STATE_PENDING = GatewayStatus.pending ∧
    classifyCode "" = GatewayStatus.unknown ∧
    (∀ c, c ≠ STATE_PAID → c ≠ STATE_CANCELLED → c ≠ STATE_PENDING →
       classifyCode c = GatewayStatus.unknown) := by
  have hred : require_payment_state (wfResp sc est (s :: l) idp)
      = if sc = 200 then (if est = "000" then Except.ok s else Except.ok "")
        else Except.ok "" := rfl
  refine ⟨?_, fun h => ?_, fun h1 h2 => ?_, fun h1 h2 => ?_,
    by decide, by decide, by decide, by decide, fun c h1 h2 h3 => ?_⟩
  · rw [hred]
    by_cases h : sc = 200
    · rw [if_pos h]
      by_cases he : est = "000"
      · exact ⟨s, by rw [if_pos he]⟩
      · exact ⟨"", by rw [if_neg he]⟩
    · exact ⟨"", by rw [if_neg h]⟩
  · rw [hred, if_neg h]
  · rw [hred, if_pos h1, if_neg h2]
  · rw [hred, if_pos h1, if_pos h2]
  · unfold classifyCode
    rw [if_neg h1, if_neg h2, if_neg h3]

theorem require_payment_state_total_on_wellformed_witness :
    (∃ c, require_payment_state (wfResp 200 "000" ["020"] none) = Except.ok c) ∧
    ((200 : Nat) ≠ 200 → require_payment_state (wfResp 200 "000" ["020"] none) = Except.ok "") ∧
    ((200 : Nat) = 200 → "000" ≠ "000" →
       require_payment_state (wfResp 200 "000" ["020"] none) = Except.ok "") ∧
    ((200 : Nat) = 200 → "000" = "000" →
       require_payment_state (wfResp 200 "000" ["020"] none) = Except.ok "020") ∧
    classifyCode STATE_PAID = GatewayStatus.paid ∧
    classifyCode STATE_CANCELLED = GatewayStatus.cancelled ∧
    classifyCode STATE_PENDING = GatewayStatus.pending ∧
    classifyCode "" = GatewayStatus.unknown ∧
    (∀ c, c ≠ STATE_PAID → c ≠ STATE_CANCELLED → c ≠ STATE_PENDING →
       classifyCode c = GatewayStatus.unknown) :=
  require_payment_state_total_on_wellformed 200 "000" "020" [] none

/-- The C9 invariant: `orderID` (the gateway transaction id) is pairwise
distinct across the store. -/
def uniqueOrderIDs (store : ITPStore) : Prop :=
  store.Pairwise (fun a b => a.orderID ≠ b.orderID)

theorem filter_orderID_le_one (store : ITPStore) (tid : String)
    (hinv : uniqueOrderIDs store) :
    (store.filter (fun x => x.orderID = tid)).length ≤ 1 := by
  induction store with
  | nil => simp
  | cons hd tl ih =>
    rw [uniqueOrderIDs, List.pairwise_cons] at hinv
    by_cases h : hd.orderID = tid
    · have htl : tl.filter (fun x => decide (x.orderID = tid)) = [] := by
        rw [List.filter_eq_nil_iff]
        intro a ha
        simp only [decide_eq_true_eq]
        intro he
        exact hinv.1 a ha (h.trans he.symm)
      simp [List.filter_cons, h, htl]
    · simp only [List.filter_cons, decide_eq_true_eq, if_neg h]
      exact ih hinv.2

/-- C9 amended: `transaction_id` (`orderID`) is globally unique across all
records — the `unique=True` constraint makes every successful insert preserve
pairwise-distinct ids — and lookup by `transaction_id` therefore resolves to
at most one record; lookup by `internal_payment_ref`, however, is NOT
constrained to a single record, because the `payment` foreign key carries no
uniqueness constraint. -/
theorem transaction_id_unique_invariant
    (store store2 : ITPStore) (r : MBWAYIfThenPayObject) (tid : String)
    (hinv : uniqueOrderIDs store)
    (hins : createITP store r = Except.ok store2) :
    uniqueOrderIDs store2 ∧
    (store2.filter (fun x => x.orderID = tid)).length ≤ 1 := by
  have hany : store.any (fun x => x.orderID = r.orderID) = false := by
    cases hb : store.any (fun x => x.orderID = r.orderID) with
    | false => rfl
    | true =>
      unfold createITP at hins
      rw [hb] at hins
      exact absurd hins (by simp)
  have hstore2 : store2 = store ++ [r] := by
    unfold createITP at hins
    rw [hany] at hins
    exact (Except.ok.inj hins).symm
  have hnotin : ∀ x ∈ store, ¬x.orderID = r.orderID := by
    simpa using List.any_eq_false.mp hany
  subst hstore2
  have huniq : uniqueOrderIDs (store ++ [r]) := by
    rw [uniqueOrderIDs, List.pairwise_append]
    exact ⟨hinv, List.pairwise_singleton _ _,
      fun a ha b hb => by rw [List.mem_singleton] at hb; subst hb; exact hnotin a ha⟩
  exact ⟨huniq, filter_orderID_le_one _ tid huniq⟩

theorem transaction_id_unique_invariant_witness :
    uniqueOrderIDs [{ orderID := "A1", mbway_key := "k", channel := "c",
                      order := 1, payment := some 7 }] ∧
    (([{ orderID := "A1", mbway_key := "k", channel := "c", order := 1,
         payment := some 7 }] : ITPStore).filter (fun x => x.orderID = "A1")).length ≤ 1 :=
  transaction_id_unique_invariant []
    [{ orderID := "A1", mbway_key := "k", channel := "c", order := 1, payment := some 7 }]
    { orderID := "A1", mbway_key := "k", channel := "c", order := 1, payment := some 7 }
    "A1" List.Pairwise.nil (by decide)

/-- C9 counterexample: the claim also asserts that lookup by
`internal_payment_ref` resolves to at most one record at every reachable
state. The `payment` column has no uniqueness constraint, so two successful
inserts with distinct `orderID`s but the same payment reference are accepted,
after which `get_order_by_payment` finds two records
(`MultipleObjectsReturned`). -/
theorem payment_lookup_not_unique :
    createITP [] { orderID := "A1", mbway_key := "k", channel := "c",
                   order := 1, payment := some 7 }
      = Except.ok [{ orderID := "A1", mbway_key := "k", channel := "c",
                     order := 1, payment := some 7 }] ∧
    createITP [{ orderID := "A1", mbway_key := "k", channel := "c",
                 order := 1, payment := some 7 }]
        { orderID := "A2", mbway_key := "k", channel := "c", order := 1, payment := some 7 }
      = Except.ok [{ orderID := "A1", mbway_key := "k", channel := "c",
                     order := 1, payment := some 7 },
                   { orderID := "A2", mbway_key := "k", channel := "c",
                     order := 1, payment := some 7 }] ∧
    get_order_by_payment
        [{ orderID := "A1", mbway_key := "k", channel := "c", order := 1, payment := some 7 },
         { orderID := "A2", mbway_key := "k", channel := "c", order := 1, payment := some 7 }] 7
      = Except.error PyError.multipleObjectsReturned := by
  decide

end PretixMbway
